import Mathlib

/-
Verification of the admin-group contract (instantiate / query / execute with
AddMembers, Leave, Donate) against its specification.  The contract logic of
`src/contract.rs` is shallowly embedded below: persistent state becomes an
explicit `State` record threaded through the handlers, the host storage and
address-validation capabilities become explicit parameters, and fallible
handlers return `Except`.  Machine integers (the u128 donation amounts) are
modelled as `Nat`; the only arithmetic performed on them is division and
modulus, which cannot overflow, and division by zero — a Rust panic — is made
explicit as an error constructor.
-/

namespace AdminContract

/-- A validated chain address.  `cosmwasm_std::Addr` is a wrapper around the
canonical string form produced by host validation. -/
abbrev Addr := String

/-- A native token amount paired with its denomination (`cosmwasm_std::Coin`,
with the u128 amount modelled as `Nat`). -/
structure Coin where
  denom : String
  amount : Nat
deriving Repr, DecidableEq

/-- `cosmwasm_std::coins(amount, denom)`: a one-element coin list. -/
def coins (amount : Nat) (denom : String) : List Coin :=
  [⟨denom, amount⟩]

/-- Caller metadata handed to every execute call (`cosmwasm_std::MessageInfo`):
the sender identity and the funds attached to the call. -/
structure MessageInfo where
  sender : Addr
  funds : List Coin
deriving Repr, DecidableEq

/-- An observability event (`cosmwasm_std::Event`): a type tag plus key-value
attributes. -/
structure Event where
  ty : String
  attributes : List (String × String)
deriving Repr, DecidableEq

/-- `Event::new(ty)`. -/
def Event.new (ty : String) : Event :=
  ⟨ty, []⟩

/-- `Event::add_attribute`: appends one key-value pair. -/
def Event.add_attribute (e : Event) (k v : String) : Event :=
  ⟨e.ty, e.attributes ++ [(k, v)]⟩

/-- An outbound bank message (`cosmwasm_std::BankMsg::Send`): a native-token
transfer instruction the host executes after the call commits. -/
inductive BankMsg where
  | Send (to_address : String) (amount : List Coin)
deriving Repr, DecidableEq

/-- A success response (`cosmwasm_std::Response`): outbound messages,
attributes and events. -/
structure Response where
  messages : List BankMsg
  attributes : List (String × String)
  events : List Event
deriving Repr, DecidableEq

/-- `Response::new()`. -/
def Response.new : Response :=
  ⟨[], [], []⟩

/-- `Response::add_attribute`: appends one key-value pair. -/
def Response.add_attribute (r : Response) (k v : String) : Response :=
  { r with attributes := r.attributes ++ [(k, v)] }

/-- `Response::add_events`: appends a batch of events. -/
def Response.add_events (r : Response) (es : List Event) : Response :=
  { r with events := r.events ++ es }

/-- `Response::add_messages`: appends a batch of outbound messages. -/
def Response.add_messages (r : Response) (ms : List BankMsg) : Response :=
  { r with messages := r.messages ++ ms }

/-- Host-side error type (`cosmwasm_std::StdError`), used for address
validation failures; only the shape matters here. -/
inductive StdError where
  | generic_err (msg : String)
deriving Repr, DecidableEq

/-- Payment check errors of `cw_utils::must_pay` (external crate `cw-utils`):
no funds or zero funds, several denominations, or the required denomination
missing. -/
inductive PaymentError where
  | NoFunds
  | MultipleDenoms
  | MissingDenom (denom : String)
deriving Repr, DecidableEq

/-- Modelled from the spec: the contract error enum (`error.rs`, whose source
file is not among the given sources; §7 of the spec lists the taxonomy and
`contract.rs` constructs `Unauthorized` with the sender and converts host and
payment errors via `From`).  The `Panic` constructor additionally models a
Rust panic (u128 division by zero aborts execution in the host); it is not a
constructor of the Rust enum but the explicit image of the abort. -/
inductive ContractError where
  | Std (e : StdError)
  | Unauthorized (sender : Addr)
  | Payment (e : PaymentError)
  | Panic (msg : String)
deriving Repr, DecidableEq

/-- The persistent state: the two storage cells `ADMINS` and `DONATION_DENOM`
of `state.rs`, read and written by the handlers through load/save. -/
structure State where
  admins : List Addr
  donation_denom : String
deriving Repr, DecidableEq

/-- The host address-validation capability (`deps.api.addr_validate`),
injected as a parameter: it either rejects a raw string or returns its
validated form. -/
abbrev Api := String → Except StdError Addr

/-- A mock host validator that accepts every raw string unchanged, as the
mock API of the multi-test harness in `contract.rs` does for the plain
lowercase identifiers used by the tests. -/
def apiOk : Api :=
  fun s => .ok s

/-- Instantiate message: initial raw admin list and the donation
denomination. -/
structure InstantiateMsg where
  admins : List String
  donation_denom : String
deriving Repr, DecidableEq

/-- Execute message variants of `msg.rs`. -/
inductive ExecuteMsg where
  | AddMembers (admins : List String)
  | Leave
  | Donate
deriving Repr, DecidableEq

/-- Query message variants of `msg.rs`. -/
inductive QueryMsg where
  | Greet
  | AdminsList
deriving Repr, DecidableEq

/-- Greet response of `msg.rs`. -/
structure GreetResp where
  message : String
deriving Repr, DecidableEq

/-- Admins-list response of `msg.rs`. -/
structure AdminListResp where
  admins : List Addr
deriving Repr, DecidableEq

/-- Query response: the tagged payload the dispatcher serializes. -/
inductive QueryResp where
  | greet (r : GreetResp)
  | admins (r : AdminListResp)
deriving Repr, DecidableEq

/-- The validation fold of `instantiate` and `add_members`:
`.map(|addr| deps.api.addr_validate(&addr)).collect::<StdResult<Vec<_>>>()`
validates left to right and aborts on the first failure. -/
def validateAll (api : Api) : List String → Except StdError (List Addr)
  | [] => .ok []
  | a :: rest => do
      let v ← api a
      let vs ← validateAll api rest
      pure (v :: vs)

/-- `instantiate` of `contract.rs`: validates every raw admin identity, then
persists the validated list to `ADMINS` and the denomination to
`DONATION_DENOM`; returns the fresh state (an empty `Response` is produced). -/
def instantiate (api : Api) (msg : InstantiateMsg) : Except StdError State := do
  let admins ← validateAll api msg.admins
  pure ⟨admins, msg.donation_denom⟩

/-- `query::greet` of `contract.rs`: the fixed literal response. -/
def greet : GreetResp :=
  ⟨"Hello World"⟩

/-- `query::admins_list` of `contract.rs`: loads `ADMINS` and returns it
verbatim.  The load cannot fail once instantiation succeeded (spec §3
invariant), so the embedding is total in the state. -/
def admins_list (st : State) : AdminListResp :=
  ⟨st.admins⟩

/-- `query` dispatcher of `contract.rs`.  It receives the read-only state
(`Deps`) and cannot write to it. -/
def query (st : State) (msg : QueryMsg) : QueryResp :=
  match msg with
  | .Greet => .greet greet
  | .AdminsList => .admins (admins_list st)

/-- `exec::add_members` of `contract.rs`: rejects a sender that is not a
current admin with `Unauthorized`; otherwise builds the per-admin
`admin_added` events and the summary attributes from the raw input list,
validates every raw identity (aborting the whole call on the first failure),
appends the validated list to `ADMINS` and saves. -/
def add_members (api : Api) (st : State) (info : MessageInfo)
    (admins : List String) : Except ContractError (State × Response) :=
  let curr_admins := st.admins
  if info.sender ∈ curr_admins then
    let events := admins.map (fun admin => (Event.new "admin_added").add_attribute "addr" admin)
    let resp := ((Response.new.add_events events).add_attribute "action" "add_members").add_attribute
      "added_count" (toString admins.length)
    match validateAll api admins with
    | .error e => .error (.Std e)
    | .ok validated => .ok (⟨curr_admins ++ validated, st.donation_denom⟩, resp)
  else
    .error (.Unauthorized info.sender)

/-- `exec::leave` of `contract.rs`: rewrites `ADMINS` to the entries different
from the sender (Rust `filter(|admin| *admin != info.sender)`), returning an
empty response; it has no failure path of its own. -/
def leave (st : State) (info : MessageInfo) : Except StdError (State × Response) :=
  .ok (⟨st.admins.filter (fun admin => admin != info.sender), st.donation_denom⟩, Response.new)

/-- `cw_utils::must_pay` (external crate `cw-utils`, the payment-requirement
check the spec describes in §4.3): exactly one attached coin, of nonzero
amount, in the required denomination; otherwise a `PaymentError`. -/
def must_pay (info : MessageInfo) (denom : String) : Except PaymentError Nat :=
  match info.funds with
  | [] => .error .NoFunds
  | [c] =>
      if c.amount = 0 then .error .NoFunds
      else if c.denom ≠ denom then .error (.MissingDenom denom)
      else .ok c.amount
  | _ => .error .MultipleDenoms

/-- `exec::donate` of `contract.rs`: loads the denomination and the admin
list, demands the exact payment via `must_pay`, computes
`donation / admins.len()` (u128 division by zero is a Rust panic, modelled as
the explicit `Panic` error), and issues one `BankMsg::Send` of the per-admin
share to every admin.  No state cell is saved. -/
def donate (st : State) (info : MessageInfo) : Except ContractError (State × Response) :=
  let denom := st.donation_denom
  let admins := st.admins
  match must_pay info denom with
  | .error e => .error (.Payment e)
  | .ok donation =>
      if admins.length = 0 then
        .error (.Panic "attempt to divide by zero")
      else
        let donation_per_admin := donation / admins.length
        let messages := admins.map
          (fun admin => BankMsg.Send admin (coins donation_per_admin denom))
        let resp := (((Response.new.add_messages messages).add_attribute
          "action" "donate").add_attribute
          "amount" (toString donation)).add_attribute
          "per_admin" (toString donation_per_admin)
        .ok (st, resp)

/-- `execute` dispatcher of `contract.rs`: routes to the three handlers,
lifting the plain `StdError` of `leave` into `ContractError` as the Rust
`map_err(Into::into)` does. -/
def execute (api : Api) (st : State) (info : MessageInfo) (msg : ExecuteMsg) :
    Except ContractError (State × Response) :=
  match msg with
  | .AddMembers admins => add_members api st info admins
  | .Leave => (leave st info).mapError .Std
  | .Donate => donate st info

/-- Host transactional semantics (spec §5): the state after a call is the
saved state on success and the unchanged prior state on any error (the host
rolls back every write of a failing invocation). -/
def resultState (st : State) (r : Except ContractError (State × Response)) : State :=
  match r with
  | .ok (st2, _) => st2
  | .error _ => st

/-- The outbound payment instructions a call produces: those of the response
on success, none on failure (a failed call dispatches nothing). -/
def sentMessages (r : Except ContractError (State × Response)) : List BankMsg :=
  match r with
  | .ok (_, resp) => resp.messages
  | .error _ => []

/-- Total amount carried by one outbound bank message. -/
def bankTotal (m : BankMsg) : Nat :=
  match m with
  | .Send _ amt => (amt.map Coin.amount).sum

/-- One post-instantiation operation: an execute call (with its caller and
funds) or a query. -/
inductive Op where
  | exec (info : MessageInfo) (msg : ExecuteMsg)
  | query (msg : QueryMsg)

/-- State transition of one operation: execute calls commit or roll back via
`resultState`; queries receive the read-only state (`Deps`) and by the host
interface cannot write, so they leave the state untouched. -/
def opStep (api : Api) (st : State) (op : Op) : State :=
  match op with
  | .exec info msg => resultState st (execute api st info msg)
  | .query _ => st

end AdminContract

namespace AdminContract

/-- Every `must_pay` result is an error or an amount; convenience case split. -/
theorem must_pay_error_or_ok (info : MessageInfo) (denom : String) :
    (∃ e, must_pay info denom = .error e) ∨ ∃ A, must_pay info denom = .ok A := by
  cases must_pay info denom with
  | error e => exact Or.inl ⟨e, rfl⟩
  | ok A => exact Or.inr ⟨A, rfl⟩

/-- Characterization of a successful donate call: with a valid payment of `A`
and a nonempty admin list, the handler returns the unchanged state and the
response built by the source (one `BankMsg::Send` of the per-admin share per
admin, plus the three attributes). -/
theorem donate_eq_ok (st : State) (info : MessageInfo) (A : Nat)
    (hpay : must_pay info st.donation_denom = .ok A) (hK : st.admins.length ≠ 0) :
    donate st info = .ok (st,
      ⟨st.admins.map (fun admin => BankMsg.Send admin (coins (A / st.admins.length) st.donation_denom)),
       [("action", "donate"), ("amount", toString A), ("per_admin", toString (A / st.admins.length))],
       []⟩) := by
  simp only [donate]
  rw [hpay]
  simp [hK, Response.new, Response.add_messages, Response.add_attribute]

/-- Characterization of donate on an empty admin list: the division by zero is
reached (a Rust panic). -/
theorem donate_eq_panic (st : State) (info : MessageInfo) (A : Nat)
    (hpay : must_pay info st.donation_denom = .ok A) (hK : st.admins.length = 0) :
    donate st info = .error (.Panic "attempt to divide by zero") := by
  simp only [donate]
  rw [hpay]
  simp [hK]

/-- Characterization of donate under a failing payment check: the payment
error is surfaced. -/
theorem donate_eq_payment_error (st : State) (info : MessageInfo) (e : PaymentError)
    (hpay : must_pay info st.donation_denom = .error e) :
    donate st info = .error (.Payment e) := by
  simp only [donate]
  rw [hpay]

/-- Characterization of add_members for a non-admin caller: `Unauthorized`
carrying the sender. -/
theorem add_members_eq_unauthorized (api : Api) (st : State) (info : MessageInfo)
    (admins : List String) (h : info.sender ∉ st.admins) :
    add_members api st info admins = .error (.Unauthorized info.sender) := by
  simp only [add_members]
  simp [h]

/-- Characterization of a successful add_members call: the validated list is
appended and the response carries the per-admin events and the two summary
attributes built by the source. -/
theorem add_members_eq_ok (api : Api) (st : State) (info : MessageInfo)
    (admins : List String) (validated : List Addr)
    (hs : info.sender ∈ st.admins) (hval : validateAll api admins = .ok validated) :
    add_members api st info admins = .ok (⟨st.admins ++ validated, st.donation_denom⟩,
      ⟨[], [("action", "add_members"), ("added_count", toString admins.length)],
       admins.map (fun a => ⟨"admin_added", [("addr", a)]⟩)⟩) := by
  simp only [add_members]
  rw [if_pos hs, hval]
  simp [Event.new, Event.add_attribute, Response.new, Response.add_events, Response.add_attribute]

/-- Characterization of add_members when a new identity fails validation: the
host error is surfaced and nothing is saved. -/
theorem add_members_eq_std (api : Api) (st : State) (info : MessageInfo)
    (admins : List String) (e : StdError)
    (hs : info.sender ∈ st.admins) (hval : validateAll api admins = .error e) :
    add_members api st info admins = .error (.Std e) := by
  simp only [add_members]
  rw [if_pos hs, hval]

/-- Successful validation preserves the length of the input list. -/
theorem validateAll_ok_length (api : Api) :
    ∀ (l : List String) (vs : List Addr), validateAll api l = .ok vs → vs.length = l.length := by
  intro l
  induction l with
  | nil =>
    intro vs h
    simp [validateAll] at h
    simp [← h]
  | cons a rest ih =>
    intro vs h
    unfold validateAll at h
    cases hapi : api a with
    | error e => rw [hapi] at h; simp [Bind.bind, Except.bind] at h
    | ok v =>
      rw [hapi] at h
      cases hrest : validateAll api rest with
      | error e => rw [hrest] at h; simp [Bind.bind, Except.bind] at h
      | ok tvs =>
        rw [hrest] at h
        simp [Bind.bind, Except.bind, Pure.pure, Except.pure] at h
        subst h
        simp [ih tvs hrest]

/-- Summing a constant over a list gives length times the constant. -/
theorem sum_map_const {α : Type} (l : List α) (c : Nat) :
    (l.map (fun _ => c)).sum = l.length * c := by
  induction l with
  | nil => simp
  | cons a t ih => simp [ih, Nat.succ_mul, Nat.add_comm]

/-- C1: a donate call with attached payment of amount `A` in the configured
denomination and `K = st.admins.length > 0` administrators issues one outbound
payment of `A / K` (floor division) to each administrator, the sum of all
outbound payments is `K * (A / K)`, and the remainder `A % K` completes that
sum to `A`, so it is transferred to no administrator. -/
theorem donate_payout (st : State) (info : MessageInfo) (A : Nat)
    (hK : 0 < st.admins.length)
    (hpay : must_pay info st.donation_denom = .ok A) :
    ∃ resp : Response,
      donate st info = .ok (st, resp) ∧
      resp.messages = st.admins.map
        (fun admin => BankMsg.Send admin (coins (A / st.admins.length) st.donation_denom)) ∧
      (resp.messages.map bankTotal).sum = st.admins.length * (A / st.admins.length) ∧
      st.admins.length * (A / st.admins.length) + A % st.admins.length = A := by
  refine ⟨_, donate_eq_ok st info A hpay (Nat.pos_iff_ne_zero.mp hK), rfl, ?_,
    Nat.div_add_mod A st.admins.length⟩
  rw [List.map_map]
  have hcomp : bankTotal ∘ (fun admin =>
      BankMsg.Send admin (coins (A / st.admins.length) st.donation_denom)) =
      fun _ => A / st.admins.length := by
    funext x
    simp [bankTotal, coins]
  rw [hcomp, sum_map_const]

/-- Witness for C1, the scenario of the `donate` test: two admins, payment of
5 eth, each admin is sent 2 eth, 4 in total, and 4 + 1 = 5. -/
theorem donate_payout_witness :
    0 < (2 : Nat) ∧
    must_pay ⟨"user", [⟨"eth", 5⟩]⟩ "eth" = .ok 5 ∧
    ∃ resp : Response,
      donate ⟨["admins1", "admins2"], "eth"⟩ ⟨"user", [⟨"eth", 5⟩]⟩ =
        .ok (⟨["admins1", "admins2"], "eth"⟩, resp) ∧
      resp.messages = [BankMsg.Send "admins1" [⟨"eth", 2⟩], BankMsg.Send "admins2" [⟨"eth", 2⟩]] ∧
      (resp.messages.map bankTotal).sum = 2 * 2 ∧
      2 * 2 + 5 % 2 = 5 :=
  ⟨by decide, rfl,
    donate_payout ⟨["admins1", "admins2"], "eth"⟩ ⟨"user", [⟨"eth", 5⟩]⟩ 5 (by decide) rfl⟩

/-- C2 counterexample: the empty admin set is reachable (instantiate accepts
an empty initial list, as the tests do), and a donate call on it with a valid
payment reaches the unguarded division by zero (the modelled Rust panic) —
no dedicated error such as NoRecipients is returned; indeed no such
constructor exists in the error type. -/
theorem donate_empty_adminset_panics :
    instantiate apiOk ⟨[], "eth"⟩ = .ok ⟨[], "eth"⟩ ∧
    must_pay ⟨"user", [⟨"eth", 5⟩]⟩ "eth" = .ok 5 ∧
    donate ⟨[], "eth"⟩ ⟨"user", [⟨"eth", 5⟩]⟩ = .error (.Panic "attempt to divide by zero") :=
  ⟨rfl, rfl, rfl⟩

/-- C2 amended: for a donate call with a valid attached payment, the division
computing the per-admin share has a zero divisor exactly when the admin set is
empty, and then the call ends in the unguarded division-by-zero panic rather
than a dedicated error; with a nonempty admin set the divisor is never zero. -/
theorem donate_zero_divisor_iff (st : State) (info : MessageInfo) (A : Nat)
    (hpay : must_pay info st.donation_denom = .ok A) :
    donate st info = .error (.Panic "attempt to divide by zero") ↔ st.admins = [] := by
  constructor
  · intro hres
    by_cases h : st.admins.length = 0
    · exact List.length_eq_zero.mp h
    · rw [donate_eq_ok st info A hpay h] at hres
      exact absurd hres (by simp)
  · intro hnil
    exact donate_eq_panic st info A hpay (by simp [hnil])

/-- Witness for the amended C2 at the empty state with a valid 5 eth payment. -/
theorem donate_zero_divisor_iff_witness :
    must_pay ⟨"user", [⟨"eth", 5⟩]⟩ "eth" = .ok 5 ∧
    (donate ⟨[], "eth"⟩ ⟨"user", [⟨"eth", 5⟩]⟩ = .error (.Panic "attempt to divide by zero") ↔
      ([] : List Addr) = []) :=
  ⟨rfl, donate_zero_divisor_iff ⟨[], "eth"⟩ ⟨"user", [⟨"eth", 5⟩]⟩ 5 rfl⟩

/-- C3: an add_members call whose caller is not a current administrator fails
with `Unauthorized` carrying the caller identity, and the state after the call
equals the state before it. -/
theorem add_members_unauthorized (api : Api) (st : State) (info : MessageInfo)
    (admins : List String) (h : info.sender ∉ st.admins) :
    add_members api st info admins = .error (.Unauthorized info.sender) ∧
    resultState st (add_members api st info admins) = st := by
  have hm := add_members_eq_unauthorized api st info admins h
  exact ⟨hm, by rw [hm]; rfl⟩

/-- Witness for C3, the scenario of the `unauthorized` test: caller `user`
against an empty admin set. -/
theorem add_members_unauthorized_witness :
    ("user" : Addr) ∉ ([] : List Addr) ∧
    (add_members apiOk ⟨[], "eth"⟩ ⟨"user", []⟩ ["user"] = .error (.Unauthorized "user") ∧
      resultState ⟨[], "eth"⟩ (add_members apiOk ⟨[], "eth"⟩ ⟨"user", []⟩ ["user"]) = ⟨[], "eth"⟩) :=
  ⟨by simp, add_members_unauthorized apiOk ⟨[], "eth"⟩ ⟨"user", []⟩ ["user"] (by simp)⟩

/-- C4: when every raw identity passes host validation, instantiation
succeeds and a subsequent admins-list query returns exactly the validated
list, in the original input order. -/
theorem instantiate_admins_list_roundtrip (api : Api) (msg : InstantiateMsg)
    (validated : List Addr) (h : validateAll api msg.admins = .ok validated) :
    ∃ st : State, instantiate api msg = .ok st ∧ admins_list st = ⟨validated⟩ := by
  refine ⟨⟨validated, msg.donation_denom⟩, ?_, rfl⟩
  unfold instantiate
  rw [h]
  rfl

/-- Witness for C4, the scenario of the `admins_list_query_multitest` test. -/
theorem instantiate_admins_list_roundtrip_witness :
    validateAll apiOk ["admin1", "admin2"] = .ok ["admin1", "admin2"] ∧
    ∃ st : State, instantiate apiOk ⟨["admin1", "admin2"], "eth"⟩ = .ok st ∧
      admins_list st = ⟨["admin1", "admin2"]⟩ :=
  ⟨rfl, instantiate_admins_list_roundtrip apiOk ⟨["admin1", "admin2"], "eth"⟩
    ["admin1", "admin2"] rfl⟩

/-- C5: an add_members call by a current administrator with `N` raw
identities that all validate appends the `N` validated identities at the end
in input order (so the length grows by exactly `N`, with no deduplication),
and the response carries exactly `N` `admin_added` events, one per added
identity, plus the summary attribute `added_count = N`. -/
theorem add_members_by_admin (api : Api) (st : State) (info : MessageInfo)
    (new_admins : List String) (validated : List Addr)
    (hauth : info.sender ∈ st.admins)
    (hval : validateAll api new_admins = .ok validated) :
    ∃ resp : Response,
      add_members api st info new_admins =
        .ok (⟨st.admins ++ validated, st.donation_denom⟩, resp) ∧
      (st.admins ++ validated).length = st.admins.length + new_admins.length ∧
      resp.events = new_admins.map (fun a => ⟨"admin_added", [("addr", a)]⟩) ∧
      resp.events.length = new_admins.length ∧
      resp.attributes = [("action", "add_members"), ("added_count", toString new_admins.length)] := by
  refine ⟨_, add_members_eq_ok api st info new_admins validated hauth hval, ?_, rfl, by simp, rfl⟩
  simp [validateAll_ok_length api new_admins validated hval]

/-- Witness for C5, the scenario of the `add_members` test: `owner` adds
`user`, the list grows from one to two entries, one event is emitted. -/
theorem add_members_by_admin_witness :
    ("owner" : Addr) ∈ (["owner"] : List Addr) ∧
    validateAll apiOk ["user"] = .ok ["user"] ∧
    ∃ resp : Response,
      add_members apiOk ⟨["owner"], "eth"⟩ ⟨"owner", []⟩ ["user"] =
        .ok (⟨["owner", "user"], "eth"⟩, resp) ∧
      (["owner", "user"] : List Addr).length = 2 ∧
      resp.events = [⟨"admin_added", [("addr", "user")]⟩] ∧
      resp.events.length = 1 ∧
      resp.attributes = [("action", "add_members"), ("added_count", toString (1 : Nat))] :=
  ⟨by simp, rfl,
    add_members_by_admin apiOk ⟨["owner"], "eth"⟩ ⟨"owner", []⟩ ["user"] ["user"] (by simp) rfl⟩

/-- C6: leave always succeeds with an empty response; the resulting admin set
is exactly the previous one with every entry equal to the caller removed (the
filter of the old list, so no non-caller entry is dropped, duplicated or
reordered), the caller occurs zero times afterwards, the denomination is
untouched, and when the caller was absent the whole state is unchanged — a
silent no-op, not an error. -/
theorem leave_removes_all (st : State) (info : MessageInfo) :
    ∃ st2 : State, leave st info = .ok (st2, Response.new) ∧
      st2.admins = st.admins.filter (fun admin => admin != info.sender) ∧
      st2.admins.count info.sender = 0 ∧
      info.sender ∉ st2.admins ∧
      st2.donation_denom = st.donation_denom ∧
      (info.sender ∉ st.admins → st2 = st) := by
  refine ⟨⟨st.admins.filter (fun admin => admin != info.sender), st.donation_denom⟩,
    rfl, rfl, ?_, ?_, rfl, ?_⟩
  · rw [List.count_eq_zero]
    simp
  · simp
  · intro habs
    have hself : st.admins.filter (fun admin => admin != info.sender) = st.admins := by
      rw [List.filter_eq_self]
      intro a ha
      simp
      exact fun heq => absurd (heq ▸ ha) habs
    cases st
    simp_all

/-- C9: leave keeps the surviving entries in their original relative order:
the new admin list is exactly the filter of the old one by "different from
the caller", hence a sublist of the old list, and every identity other than
the caller keeps its exact number of occurrences. -/
theorem leave_keeps_order (st : State) (info : MessageInfo) :
    ∃ st2 : State, leave st info = .ok (st2, Response.new) ∧
      st2.admins = st.admins.filter (fun admin => admin != info.sender) ∧
      List.Sublist st2.admins st.admins ∧
      ∀ a : Addr, a ≠ info.sender → st2.admins.count a = st.admins.count a := by
  refine ⟨⟨st.admins.filter (fun admin => admin != info.sender), st.donation_denom⟩,
    rfl, rfl, List.filter_sublist _, ?_⟩
  intro a ha
  exact List.count_filter (by simp [ha])

/-- C7: a donate call whose attached payment is missing, has zero amount, is
in a denomination other than the configured one, or consists of more than one
denomination, fails with a payment error and produces zero outbound payment
instructions. -/
theorem donate_bad_payment (st : State) (info : MessageInfo)
    (h : info.funds = [] ∨
      (∃ c : Coin, info.funds = [c] ∧ (c.amount = 0 ∨ c.denom ≠ st.donation_denom)) ∨
      2 ≤ info.funds.length) :
    (∃ e : PaymentError, donate st info = .error (.Payment e)) ∧
    sentMessages (donate st info) = [] := by
  have hpay : ∃ e, must_pay info st.donation_denom = .error e := by
    rcases h with h | ⟨c, hc, hz | hd⟩ | h
    · exact ⟨.NoFunds, by simp [must_pay, h]⟩
    · exact ⟨.NoFunds, by simp [must_pay, hc, hz]⟩
    · by_cases hz : c.amount = 0
      · exact ⟨.NoFunds, by simp [must_pay, hc, hz]⟩
      · exact ⟨.MissingDenom st.donation_denom, by simp [must_pay, hc, hz, hd]⟩
    · match hf : info.funds with
      | [] => rw [hf] at h; simp at h
      | [c] => rw [hf] at h; simp at h
      | c1 :: c2 :: rest => exact ⟨.MultipleDenoms, by simp [must_pay, hf]⟩
  obtain ⟨e, he⟩ := hpay
  have hd := donate_eq_payment_error st info e he
  exact ⟨⟨e, hd⟩, by rw [hd]; rfl⟩

/-- Witness for C7: a donate call with no attached funds fails and sends
nothing. -/
theorem donate_bad_payment_witness :
    (([] : List Coin) = [] ∨
      (∃ c : Coin, ([] : List Coin) = [c] ∧ (c.amount = 0 ∨ c.denom ≠ "eth")) ∨
      2 ≤ ([] : List Coin).length) ∧
    ((∃ e : PaymentError, donate ⟨["admins1"], "eth"⟩ ⟨"user", []⟩ = .error (.Payment e)) ∧
      sentMessages (donate ⟨["admins1"], "eth"⟩ ⟨"user", []⟩) = []) :=
  ⟨Or.inl rfl, donate_bad_payment ⟨["admins1"], "eth"⟩ ⟨"user", []⟩ (Or.inl rfl)⟩

/-- One operation step never changes the stored denomination. -/
theorem opStep_denom (api : Api) (st : State) (op : Op) :
    (opStep api st op).donation_denom = st.donation_denom := by
  match op with
  | .query m => rfl
  | .exec info (.AddMembers admins) =>
    show (resultState st (add_members api st info admins)).donation_denom = st.donation_denom
    by_cases hs : info.sender ∈ st.admins
    · cases hval : validateAll api admins with
      | error e => rw [add_members_eq_std api st info admins e hs hval]; rfl
      | ok v => rw [add_members_eq_ok api st info admins v hs hval]; rfl
    · rw [add_members_eq_unauthorized api st info admins hs]; rfl
  | .exec info .Leave => rfl
  | .exec info .Donate =>
    show (resultState st (donate st info)).donation_denom = st.donation_denom
    rcases must_pay_error_or_ok info st.donation_denom with ⟨e, he⟩ | ⟨A, hA⟩
    · rw [donate_eq_payment_error st info e he]; rfl
    · by_cases h : st.admins.length = 0
      · rw [donate_eq_panic st info A hA h]; rfl
      · rw [donate_eq_ok st info A hA h]; rfl

/-- C8: the denomination cell is written only at instantiation — after any
sequence of post-instantiation operations (execute calls with host rollback on
error, and queries, which receive the state read-only) the stored denomination
equals the value persisted at instantiation. -/
theorem donation_denom_immutable (api : Api) (st : State) (ops : List Op) :
    (ops.foldl (opStep api) st).donation_denom = st.donation_denom := by
  induction ops generalizing st with
  | nil => rfl
  | cons op rest ih => rw [List.foldl_cons, ih, opStep_denom]

/-- C10: donate never writes persistent state — whether it succeeds or fails,
the state after the call (admin list and denomination cells alike) is exactly
the state before it. -/
theorem donate_preserves_state (st : State) (info : MessageInfo) :
    resultState st (donate st info) = st := by
  rcases must_pay_error_or_ok info st.donation_denom with ⟨e, he⟩ | ⟨A, hA⟩
  · rw [donate_eq_payment_error st info e he]; rfl
  · by_cases h : st.admins.length = 0
    · rw [donate_eq_panic st info A hA h]; rfl
    · rw [donate_eq_ok st info A hA h]; rfl

end AdminContract
